import Mathlib

/-!
Shallow embedding of the indicator / pattern-detection engine of the xStonks
repository (`src/xstonks.py`), together with theorems settling the frozen
claims about it.

Modelling conventions, chosen to mirror the pandas / IEEE-754 semantics of the
source exactly up to the use of exact rationals instead of binary floats:

* A pandas scalar that may be NaN is modelled as `F := Option ℚ`, with `none`
  playing the role of NaN.  Arithmetic on `F` propagates `none` the way IEEE
  arithmetic propagates NaN, and every comparison involving `none` is `false`,
  the way every IEEE comparison involving NaN is false.
* A pandas Series is a `List F` (or `List ℚ` when no entry can be NaN);
  `rolling(window=w).mean()` with the default `min_periods = w` yields `none`
  at every position whose trailing window is not yet full or contains a NaN.
* A function that can raise an exception in Python is modelled with an
  `Option` result, `none` standing for the raised exception; each such `none`
  branch is annotated with the concrete Python error it models.
* `DataFrame` keeps the five OHLCV columns of the source as optional lists
  (`none` = column absent) plus the row count used by `len(df)`.
* The rolling standard deviation is the square root of the rolling variance.
  A square root is in general irrational, so the embedding is parameterised
  by the square-root map `sqrtFn : ℚ → ℚ`; every theorem about code touching
  Bollinger bands holds for EVERY such map (in the claims at hand the standard
  deviation is either undefined or multiplied by `num_std = 0`, so its value
  never matters).
-/

namespace XStonks

/-- A possibly-NaN scalar: `none` is NaN. -/
abbrev F := Option ℚ

/-- IEEE `<`: any comparison with NaN is false. -/
def flt (a b : F) : Bool :=
  match a, b with
  | some x, some y => decide (x < y)
  | _, _ => false

/-- IEEE `≤`: any comparison with NaN is false. -/
def fle (a b : F) : Bool :=
  match a, b with
  | some x, some y => decide (x ≤ y)
  | _, _ => false

/-- IEEE `>` as the flipped `<`. -/
def fgt (a b : F) : Bool := flt b a

/-- NaN-propagating addition. -/
def fadd (a b : F) : F :=
  match a, b with
  | some x, some y => some (x + y)
  | _, _ => none

/-- NaN-propagating subtraction. -/
def fsub (a b : F) : F :=
  match a, b with
  | some x, some y => some (x - y)
  | _, _ => none

/-- NaN-propagating multiplication. -/
def fmul (a b : F) : F :=
  match a, b with
  | some x, some y => some (x * y)
  | _, _ => none

/-- Division as it is used by the golden-cross detector: a NaN operand gives
NaN, and a zero denominator gives `±∞` or NaN.  All of those fail the only
comparison the detector applies to the quotient (`≤` a finite threshold, with
a provably positive numerator whenever the denominator can be zero), so all
three are collapsed into `none`. -/
def fdiv (a b : F) : F :=
  match a, b with
  | some x, some y => if y = 0 then none else some (x / y)
  | _, _ => none

/-- The value in the last row of a series column (`.iloc[-1]` of a series that
is known to be nonempty); NaN when the list is empty or the entry is NaN. -/
def lastF (l : List F) : F := (l.getLast?).getD none

/-- Mean of one full rolling window: NaN as soon as one entry is NaN
(pandas counts only non-NaN values and `min_periods = window` then fails). -/
def windowMean (win : List F) : F :=
  if win.all Option.isSome then
    some ((win.map (fun o => o.getD 0)).sum / (win.length : ℚ))
  else none

/-- `series.rolling(window=w).mean()` with the default `min_periods = w`:
position `i` holds the mean of entries `i+1-w .. i` when that window is full
and NaN-free, and NaN otherwise. -/
def rollingMeanF (w : ℕ) (xs : List F) : List F :=
  (List.range xs.length).map (fun i =>
    if 1 ≤ w ∧ w ≤ i + 1 then windowMean ((xs.take (i + 1)).drop (i + 1 - w))
    else none)

/-- Sample variance (`ddof = 1`) of one full rolling window: NaN when an entry
is NaN or the window has fewer than two entries (the `n - 1` denominator of
pandas' default `ddof=1` degenerates for a single point). -/
def windowVar (win : List F) : F :=
  if win.all Option.isSome ∧ 2 ≤ win.length then
    some ((((win.map (fun o => o.getD 0)).map
        (fun x =>
          (x - (win.map (fun o => o.getD 0)).sum / (win.length : ℚ)) *
            (x - (win.map (fun o => o.getD 0)).sum / (win.length : ℚ)))).sum)
      / ((win.length : ℚ) - 1))
  else none

/-- `series.rolling(window=w).var()` with the default `min_periods = w`. -/
def rollingVarF (w : ℕ) (xs : List F) : List F :=
  (List.range xs.length).map (fun i =>
    if 1 ≤ w ∧ w ≤ i + 1 then windowVar ((xs.take (i + 1)).drop (i + 1 - w))
    else none)

/-- One step of `ewm(span, adjust=False).mean()`:
`y_t = (1 - α) * y_(t-1) + α * x_t`. -/
def ewmStep (α y x : ℚ) : ℚ := (1 - α) * y + α * x

/-- The recursive tail of the exponential smoothing, carrying the previous
smoothed value. -/
def ewmGo (α y : ℚ) : List ℚ → List ℚ
  | [] => []
  | x :: xs => ewmStep α y x :: ewmGo α (ewmStep α y x) xs

/-- `series.ewm(alpha, adjust=False).mean()`: seeded at the first value,
defined from index 0, same length as the input. -/
def ewmList (α : ℚ) : List ℚ → List ℚ
  | [] => []
  | x :: xs => x :: ewmGo α x xs

/-- `series.ewm(span=s, adjust=False).mean()`, with `α = 2 / (s + 1)`. -/
def ewmSpan (span : ℕ) (xs : List ℚ) : List ℚ :=
  ewmList (2 / ((span : ℚ) + 1)) xs

/-- `compute_moving_average(prices, period)`:
`prices.rolling(window=period).mean()`. -/
def compute_moving_average (prices : List ℚ) (period : ℕ) : List F :=
  rollingMeanF period (prices.map some)

/-- `prices.diff()`: NaN at index 0, one-step differences afterwards. -/
def diffF : List ℚ → List F
  | [] => []
  | x :: xs => none :: List.zipWith (fun a b => some (b - a)) (x :: xs) xs

/-- The one-step differences of a series without the leading NaN slot
(used to state claims about trailing deltas). -/
def pairDiffs (xs : List ℚ) : List ℚ :=
  List.zipWith (fun a b => b - a) xs xs.tail

/-- `delta.clip(lower=0)` applied to a possibly-NaN delta. -/
def gainF (d : F) : F := d.map (fun x => max x 0)

/-- `-delta.clip(upper=0)` applied to a possibly-NaN delta. -/
def lossF (d : F) : F := d.map (fun x => -(min x 0))

/-- `100 - 100 / (1 + avg_gain / avg_loss)` on defined averages, made explicit
for the IEEE limits of the source's float division: `avg_loss = 0` with
`avg_gain ≠ 0` gives an infinite ratio and the RSI saturates at 100, while
`0 / 0` is NaN and propagates to a NaN RSI. -/
def rsiPoint (g l : ℚ) : F :=
  if l = 0 then (if g = 0 then none else some 100)
  else some (100 - 100 / (1 + g / l))

/-- `compute_rsi(prices, period)` of the source: rolling means of clipped
deltas with `min_periods = period`, then the RSI formula pointwise. -/
def compute_rsi (prices : List ℚ) (period : ℕ) : List F :=
  List.zipWith
    (fun og ol =>
      match og, ol with
      | some g, some l => rsiPoint g l
      | _, _ => none)
    (rollingMeanF period ((diffF prices).map gainF))
    (rollingMeanF period ((diffF prices).map lossF))

/-- `compute_macd(prices, fast, slow, signal)`: returns
`(macd_line, signal_line, macd_hist)`. -/
def compute_macd (prices : List ℚ) (fast slow signal : ℕ) :
    List ℚ × List ℚ × List ℚ :=
  let ema_fast := ewmSpan fast prices
  let ema_slow := ewmSpan slow prices
  let macd_line := List.zipWith (fun a b => a - b) ema_fast ema_slow
  let signal_line := ewmSpan signal macd_line
  let macd_hist := List.zipWith (fun a b => a - b) macd_line signal_line
  (macd_line, signal_line, macd_hist)

/-- The MACD line of `compute_macd` at the source's default spans 12/26/9. -/
def macd_line_of (prices : List ℚ) : List ℚ := (compute_macd prices 12 26 9).1

/-- The MACD signal line at the source's default spans 12/26/9. -/
def signal_line_of (prices : List ℚ) : List ℚ := (compute_macd prices 12 26 9).2.1

/-- `check_bullish_macd(prices)`: false when fewer than two MACD points exist,
otherwise a strict upward crossing between the last two indices.  The
fallback arms of the match are unreachable: both lines provably have the
length of the input, which the guard has bounded below by 2. -/
def check_bullish_macd (prices : List ℚ) : Bool :=
  let macd_line := macd_line_of prices
  let signal_line := signal_line_of prices
  if macd_line.length < 2 then false
  else
    match macd_line[macd_line.length - 2]?, signal_line[signal_line.length - 2]?,
        macd_line.getLast?, signal_line.getLast? with
    | some m2, some s2, some m1, some s1 => decide (m2 < s2 ∧ m1 > s1)
    | _, _, _, _ => false

/-- `compute_bollinger_bands(prices, period, num_std)`: middle band (SMA) and
`middle ± num_std·std`.  `num_std · NaN = NaN`, matching the float product. -/
def compute_bollinger_bands (sqrtFn : ℚ → ℚ) (prices : List ℚ)
    (period : ℕ) (num_std : ℚ) : List F × List F × List F :=
  (rollingMeanF period (prices.map some),
    List.zipWith (fun a b => fadd a (fmul (some num_std) b))
      (rollingMeanF period (prices.map some))
      ((rollingVarF period (prices.map some)).map (Option.map sqrtFn)),
    List.zipWith (fun a b => fsub a (fmul (some num_std) b))
      (rollingMeanF period (prices.map some))
      ((rollingVarF period (prices.map some)).map (Option.map sqrtFn)))

/-- The pandas row/column layout of the source: each OHLCV column is either
absent (`none`) or a list of values; `nrows` is the row count `len(df)`.
A real pandas frame always has every present column of length `nrows`
(`DataFrame.WF` below). -/
structure DataFrame where
  nrows : ℕ
  open_price : Option (List ℚ)
  high_price : Option (List ℚ)
  low_price : Option (List ℚ)
  close_price : Option (List ℚ)
  volume : Option (List ℚ)

/-- Well-formedness of a frame: every materialised column has `nrows` rows. -/
def DataFrame.WF (df : DataFrame) : Prop :=
  (∀ l, df.open_price = some l → l.length = df.nrows) ∧
  (∀ l, df.high_price = some l → l.length = df.nrows) ∧
  (∀ l, df.low_price = some l → l.length = df.nrows) ∧
  (∀ l, df.close_price = some l → l.length = df.nrows) ∧
  (∀ l, df.volume = some l → l.length = df.nrows)

/-- `check_bollinger_bounce(df, period, num_std)`.  The source reads
`df['close_price']` (KeyError when the column is absent — first `none`) and
`df['close_price'].iloc[-1]` (IndexError on an empty series — second `none`)
without any guard; with data present it compares the latest close against
`lower_band.iloc[-1] * 1.01` and `sma.iloc[-1]` under IEEE NaN semantics. -/
def check_bollinger_bounce (sqrtFn : ℚ → ℚ) (df : DataFrame)
    (period : ℕ) (num_std : ℚ) : Option Bool :=
  match df.close_price with
  | none => none
  | some cs =>
    let bands := compute_bollinger_bands sqrtFn cs period num_std
    match cs.getLast? with
    | none => none
    | some latest_price =>
      some (fle (some latest_price) (fmul (lastF bands.2.2) (some (101 / 100))) &&
        fgt (some latest_price) (lastF bands.1))

/-- `check_volume_spike(df, multiplier)`: false when the volume column is
absent; with the column present the source evaluates
`df['volume'].rolling(window=20).mean().iloc[-1]`, whose `.iloc[-1]` raises
IndexError on an empty series (the `none` arm); otherwise the NaN-aware
`avg_volume > 0 and latest_volume >= multiplier * avg_volume`. -/
def check_volume_spike (df : DataFrame) (multiplier : ℚ) : Option Bool :=
  match df.volume with
  | none => some false
  | some vs =>
    match (rollingMeanF 20 (vs.map some)).getLast? with
    | none => none
    | some avg_volume =>
      match vs.getLast? with
      | none => none
      | some latest_volume =>
        some (fgt avg_volume (some 0) &&
          fle (fmul (some multiplier) avg_volume) (some latest_volume))

/-- `detect_bullish_engulfing(df)`: guarded on `len(df) ≥ 2` and on both
columns being present; then the two-candle engulfing test.  The fallback
row-access arm is unreachable for well-formed frames. -/
def detect_bullish_engulfing (df : DataFrame) : Bool :=
  if df.nrows < 2 then false
  else
    match df.open_price, df.close_price with
    | some os, some cs =>
      match os[os.length - 2]?, cs[cs.length - 2]?, os.getLast?, cs.getLast? with
      | some prev_open, some prev_close, some curr_open, some curr_close =>
        decide (prev_close < prev_open ∧ curr_close > curr_open ∧
          curr_open < prev_close ∧ curr_close > prev_open)
      | _, _, _, _ => false
    | _, _ => false

/-- `detect_bullish_hammer(df)`: guarded on `len(df) ≥ 1` and all four OHLC
columns; explicit false on a degenerate candle (`range = 0` or `body = 0`),
otherwise the small-body / long-lower-shadow test.  The fallback row-access
arm is unreachable for well-formed frames. -/
def detect_bullish_hammer (df : DataFrame) : Bool :=
  if df.nrows < 1 then false
  else
    match df.open_price, df.close_price, df.high_price, df.low_price with
    | some os, some cs, some hs, some ls =>
      match os.getLast?, cs.getLast?, hs.getLast?, ls.getLast? with
      | some o, some c, some h, some l =>
        let body := |c - o|
        let candle_range := h - l
        let lower_shadow := min o c - l
        if candle_range = 0 ∨ body = 0 then false
        else decide (body / candle_range < 3 / 10 ∧ lower_shadow / body > 2)
      | _, _, _, _ => false
    | _, _, _, _ => false

/-- The rows of `df.dropna(subset=['ma_short', 'ma_long'])` restricted to the
two moving-average columns: the positions where both rolling means are
defined, in order. -/
def gc_clean (prices : List ℚ) (short_period long_period : ℕ) : List (ℚ × ℚ) :=
  (List.zip (rollingMeanF short_period (prices.map some))
      (rollingMeanF long_period (prices.map some))).filterMap
    (fun p =>
      match p.1, p.2 with
      | some a, some b => some (a, b)
      | _, _ => none)

/-- `df_clean.tail(lookback)`: the trailing `lookback` clean rows. -/
def gc_recent (prices : List ℚ) (short_period long_period lookback : ℕ) :
    List (ℚ × ℚ) :=
  let c := gc_clean prices short_period long_period
  c.drop (c.length - lookback)

/-- `slope_short = (recent_ma_short.iloc[-1] - recent_ma_short.iloc[0]) / lookback`
of `is_golden_cross_imminent`; `none` models the IndexError of `.iloc` on the
empty `tail(0)`. -/
def gc_slope_short (prices : List ℚ) (short_period long_period lookback : ℕ) :
    Option ℚ :=
  match (gc_recent prices short_period long_period lookback).getLast?,
      (gc_recent prices short_period long_period lookback).head? with
  | some l, some h => some ((l.1 - h.1) / (lookback : ℚ))
  | _, _ => none

/-- `gap_slope = (recent_gap.iloc[-1] - recent_gap.iloc[0]) / lookback` with
`recent_gap = recent_data['ma_long'] - recent_data['ma_short']`. -/
def gc_gap_slope (prices : List ℚ) (short_period long_period lookback : ℕ) :
    Option ℚ :=
  match (gc_recent prices short_period long_period lookback).getLast?,
      (gc_recent prices short_period long_period lookback).head? with
  | some l, some h => some (((l.2 - l.1) - (h.2 - h.1)) / (lookback : ℚ))
  | _, _ => none

/-- `is_golden_cross_imminent(df, short_period, long_period, lookback,
gap_threshold)`: the insufficient-data guard, the already-crossed test on the
last row's (possibly NaN) moving averages, the clean-row lookback guard, the
two slopes, and the gap-ratio threshold test.  The `none` arm models the
IndexError raised when `tail(lookback)` is empty (`lookback = 0`). -/
def is_golden_cross_imminent (prices : List ℚ)
    (short_period long_period lookback : ℕ) (gap_threshold : ℚ) : Option Bool :=
  if prices.length < long_period then some false
  else
    let current_ma_short := lastF (rollingMeanF short_period (prices.map some))
    let current_ma_long := lastF (rollingMeanF long_period (prices.map some))
    if fle current_ma_long current_ma_short then some false
    else
      if (gc_clean prices short_period long_period).length < lookback then some false
      else
        match gc_slope_short prices short_period long_period lookback,
            gc_gap_slope prices short_period long_period lookback with
        | some slope_short, some gap_slope =>
          some (decide (slope_short > 0) && decide (gap_slope < 0) &&
            fle (fdiv (fsub current_ma_long current_ma_short) current_ma_long)
              (some gap_threshold))
        | _, _ => none

/-- The per-symbol output record of `analyze_stock_full` (the `symbol` string
is omitted: no claim mentions it). -/
structure SignalRecord where
  last_trade_price : ℚ
  ma_short : F
  ma_long : F
  rsi : F
  basic_ma_rsi_criteria : Bool
  bullish_macd : Bool
  bollinger_bounce : Bool
  volume_spike : Bool
  bullish_engulfing : Bool
  bullish_hammer : Bool
deriving DecidableEq

/-- `analyze_stock_full` after its two data fetches, which are modelled as
arguments: `quote` is `none` when `get_quote` returned `None`, and
`some none` when the quote object exists but lacks the `last_trade_price`
key (the source then falls back to `float(quote.get('last_trade_price', 0))
= 0.0`); `hist` is `none` when `get_historicals` returned `None`.  The
`close_price = none` arm is unreachable in the source, whose retrieval layer
always materialises that column.  The two `.getD false` extractions cannot
see `none` on a well-formed nonempty frame (proved below for the inputs the
theorems use). -/
def analyze_stock_full (sqrtFn : ℚ → ℚ) (quote : Option (Option ℚ))
    (hist : Option DataFrame) : Option SignalRecord :=
  match quote with
  | none => none
  | some q =>
    let last_trade_price := q.getD 0
    match hist with
    | none => none
    | some df =>
      if df.nrows = 0 then none
      else
        match df.close_price with
        | none => none
        | some cs =>
          let ma_short := lastF (compute_moving_average cs 10)
          let ma_long := lastF (compute_moving_average cs 50)
          let rsi := lastF (compute_rsi cs 14)
          some
            { last_trade_price := last_trade_price
              ma_short := ma_short
              ma_long := ma_long
              rsi := rsi
              basic_ma_rsi_criteria :=
                fgt (some last_trade_price) ma_short && fgt ma_short ma_long &&
                  flt rsi (some 70)
              bullish_macd := check_bullish_macd cs
              bollinger_bounce := (check_bollinger_bounce sqrtFn df 20 2).getD false
              volume_spike := (check_volume_spike df (3 / 2)).getD false
              bullish_engulfing := detect_bullish_engulfing df
              bullish_hammer := detect_bullish_hammer df }

/-! ### Concrete inputs used by witnesses and counterexamples -/

/-- 19 candles at 100 and a last close of 100.5: the last close is strictly
above the 20-period SMA yet within 1% of it. -/
def csBounce : List ℚ := List.replicate 19 100 ++ [201 / 2]

/-- A well-formed 20-row frame holding only the close column `csBounce`. -/
def dfBounce : DataFrame := ⟨20, none, none, none, some csBounce, none⟩

/-- A frame with a materialised close column and zero rows
(`pd.DataFrame({'close_price': []})`). -/
def dfEmptyClose : DataFrame := ⟨0, none, none, none, some [], none⟩

/-- The fully empty frame: zero rows, no columns at all. -/
def dfNoCols : DataFrame := ⟨0, none, none, none, none, none⟩

/-- A frame with a materialised volume column and zero rows. -/
def dfEmptyVol : DataFrame := ⟨0, none, none, none, none, some []⟩

/-- A frame with a volume column of three rows (fewer than the 20 the rolling
mean needs). -/
def dfSmallVol : DataFrame := ⟨3, none, none, none, none, some [10, 10, 100]⟩

/-- 205 closes: zeros except a single spike of 5 at index 150.  The 50-period
SMA is 1/10 at index 199 and 0 from index 200 on; the 200-period SMA is 1/40
on every index from 199 on.  All 205 ≥ 200 rows, short MA below long MA. -/
def pricesC2 : List ℚ := List.replicate 150 0 ++ 5 :: List.replicate 54 0

/-- A 15-value series: fourteen zeros then a 1; its trailing 14 one-step
differences are thirteen zeros and a single 1. -/
def csRsi : List ℚ := [0, 0, 0, 0, 0, 0, 0, 0, 0, 0, 0, 0, 0, 0, 1]

/-- A one-row frame with close `[1]`, used to exercise `analyze_stock_full`. -/
def dfOneRow : DataFrame := ⟨1, none, none, none, some [1], none⟩

/-- A two-row frame with close `[2, 3]`, used to exercise
`analyze_stock_full` with a missing quote key. -/
def dfTwoRow : DataFrame := ⟨2, none, none, none, some [2, 3], none⟩

/-- The record `analyze_stock_full` produces for `dfOneRow` and a quote of 5. -/
def recOneRow : SignalRecord :=
  (analyze_stock_full (fun _ => 0) (some (some 5)) (some dfOneRow)).getD
    ⟨0, none, none, none, false, false, false, false, false, false⟩

/-! ### Helper lemmas -/

theorem rollingMeanF_length (w : ℕ) (xs : List F) :
    (rollingMeanF w xs).length = xs.length := by
  simp [rollingMeanF]

theorem rollingMeanF_getElem (w : ℕ) (xs : List F) (i : ℕ) (h : i < xs.length) :
    (rollingMeanF w xs)[i]? =
      some (if 1 ≤ w ∧ w ≤ i + 1 then
        windowMean ((xs.take (i + 1)).drop (i + 1 - w)) else none) := by
  simp [rollingMeanF, List.getElem?_range h]

theorem rollingVarF_length (w : ℕ) (xs : List F) :
    (rollingVarF w xs).length = xs.length := by
  simp [rollingVarF]

theorem rollingVarF_getElem (w : ℕ) (xs : List F) (i : ℕ) (h : i < xs.length) :
    (rollingVarF w xs)[i]? =
      some (if 1 ≤ w ∧ w ≤ i + 1 then
        windowVar ((xs.take (i + 1)).drop (i + 1 - w)) else none) := by
  simp [rollingVarF, List.getElem?_range h]

theorem ewmGo_length (α y : ℚ) (xs : List ℚ) : (ewmGo α y xs).length = xs.length := by
  induction xs generalizing y with
  | nil => rfl
  | cons x xs ih => simp [ewmGo, ih]

theorem ewmList_length (α : ℚ) (xs : List ℚ) : (ewmList α xs).length = xs.length := by
  cases xs with
  | nil => rfl
  | cons x xs => simp [ewmList, ewmGo_length]

theorem ewmSpan_length (span : ℕ) (xs : List ℚ) :
    (ewmSpan span xs).length = xs.length := ewmList_length _ _

theorem ewmGo_const (α c : ℚ) (m : ℕ) :
    ewmGo α c (List.replicate m c) = List.replicate m c := by
  induction m with
  | zero => rfl
  | succ m ih =>
    have hstep : ewmStep α c c = c := by unfold ewmStep; ring
    simp [List.replicate_succ, ewmGo, hstep, ih]

theorem windowMean_replicate (w : ℕ) (c : ℚ) (hw : 1 ≤ w) :
    windowMean (List.replicate w (some c)) = some c := by
  have hw' : ((w : ℚ)) ≠ 0 := by
    exact_mod_cast Nat.pos_iff_ne_zero.mp hw
  simp [windowMean, List.map_replicate, List.sum_replicate, nsmul_eq_mul,
    List.all_eq_true, mul_div_assoc, mul_div_cancel_left₀ _ hw']

/-! ### Claims -/

/-- Claim C6 (confirmed).  For every input series with fewer than
`long_period` rows, `is_golden_cross_imminent` returns `False` regardless of
the price values: the insufficient-data guard fires before anything else is
computed. -/
theorem golden_cross_short_series_false (prices : List ℚ)
    (short_period long_period lookback : ℕ) (gap_threshold : ℚ)
    (h : prices.length < long_period) :
    is_golden_cross_imminent prices short_period long_period lookback
      gap_threshold = some false := by
  unfold is_golden_cross_imminent
  rw [if_pos h]

/-- Witness for C6 at the source's default parameters: the empty series is
shorter than 200 and the detector reports `False`. -/
theorem golden_cross_short_series_false_witness :
    ([] : List ℚ).length < 200 ∧
      is_golden_cross_imminent [] 50 200 5 (1 / 50) = some false :=
  ⟨by decide, golden_cross_short_series_false [] 50 200 5 (1 / 50) (by decide)⟩

/-- Claim C8 (confirmed).  On a constant series `c, c, ..., c` of length `n`,
the simple moving average equals `c` at every index from `period - 1` onward,
and the exponential moving average used inside `compute_macd` (seeded at the
first value, smoothing factor `2/(span+1)`) equals `c` at every index. -/
theorem sma_ema_constant_series (c : ℚ) (n period i span : ℕ)
    (hp : 1 ≤ period) (hi : period - 1 ≤ i) (hin : i < n) :
    (compute_moving_average (List.replicate n c) period)[i]? = some (some c) ∧
    ewmSpan span (List.replicate n c) = List.replicate n c := by
  constructor
  · have hlen : ((List.replicate n c).map some).length = n := by simp
    rw [compute_moving_average, rollingMeanF_getElem period _ i (by simpa using hin)]
    have hcond : 1 ≤ period ∧ period ≤ i + 1 := ⟨hp, by omega⟩
    rw [if_pos hcond]
    have hwin : ((((List.replicate n c).map some).take (i + 1)).drop (i + 1 - period)) =
        List.replicate period (some c) := by
      rw [List.map_replicate, List.take_replicate, List.drop_replicate]
      congr 1
      omega
    rw [hwin, windowMean_replicate _ _ hp]
  · unfold ewmSpan
    cases n with
    | zero => rfl
    | succ m => simp [List.replicate_succ, ewmList, ewmGo_const]

/-- Witness for C8: a constant series of three sevens, window 2, checked at
index 1, and the span-9 EMA. -/
theorem sma_ema_constant_series_witness :
    (1 ≤ 2 ∧ 2 - 1 ≤ 1 ∧ 1 < 3) ∧
      ((compute_moving_average (List.replicate 3 (7 : ℚ)) 2)[1]? = some (some 7) ∧
        ewmSpan 9 (List.replicate 3 (7 : ℚ)) = List.replicate 3 7) :=
  ⟨by decide, sma_ema_constant_series 7 3 2 1 9 (by decide) (by decide) (by decide)⟩

theorem macd_line_of_length (prices : List ℚ) :
    (macd_line_of prices).length = prices.length := by
  simp [macd_line_of, compute_macd, ewmSpan_length]

theorem signal_line_of_length (prices : List ℚ) :
    (signal_line_of prices).length = prices.length := by
  simp [signal_line_of, compute_macd, ewmSpan_length]

/-- Claim C5 (confirmed).  `check_bullish_macd` is true iff the series yields
at least two MACD points (the MACD and signal lines have exactly the length
of the input, so this is `2 ≤ len`), the MACD line is strictly below the
signal line at the second-to-last index, and strictly above it at the last
index. -/
theorem bullish_macd_iff (prices : List ℚ) :
    check_bullish_macd prices = true ↔
      2 ≤ prices.length ∧
      flt (macd_line_of prices)[prices.length - 2]?
        (signal_line_of prices)[prices.length - 2]? = true ∧
      flt (signal_line_of prices)[prices.length - 1]?
        (macd_line_of prices)[prices.length - 1]? = true := by
  by_cases h : prices.length < 2
  · have hfalse : check_bullish_macd prices = false := by
      unfold check_bullish_macd
      rw [if_pos (by rw [macd_line_of_length]; exact h)]
    rw [hfalse]
    simp only [Bool.false_eq_true, false_iff]
    intro hcon
    omega
  · have h2 : 2 ≤ prices.length := by omega
    have hm : prices.length - 2 < (macd_line_of prices).length := by
      rw [macd_line_of_length]; omega
    have hs : prices.length - 2 < (signal_line_of prices).length := by
      rw [signal_line_of_length]; omega
    have hm1 : prices.length - 1 < (macd_line_of prices).length := by
      rw [macd_line_of_length]; omega
    have hs1 : prices.length - 1 < (signal_line_of prices).length := by
      rw [signal_line_of_length]; omega
    rw [List.getElem?_eq_getElem hm, List.getElem?_eq_getElem hs,
      List.getElem?_eq_getElem hm1, List.getElem?_eq_getElem hs1]
    unfold check_bullish_macd
    rw [if_neg (by rw [macd_line_of_length]; exact h)]
    rw [macd_line_of_length, signal_line_of_length,
      List.getLast?_eq_getElem?, List.getLast?_eq_getElem?,
      macd_line_of_length, signal_line_of_length,
      List.getElem?_eq_getElem hm, List.getElem?_eq_getElem hs,
      List.getElem?_eq_getElem hm1, List.getElem?_eq_getElem hs1]
    simp [flt, h2, and_assoc]

/-- Claim C10, counterexample.  The claim quantifies over every frame with a
volume column and fewer than 20 rows, which includes the zero-row frame; on
that frame `df['volume'].rolling(window=20).mean().iloc[-1]` raises
IndexError (modelled as `none`) instead of returning `False`. -/
theorem volume_spike_empty_raises :
    dfEmptyVol.volume = some [] ∧ ([] : List ℚ).length < 20 ∧
      check_volume_spike dfEmptyVol (3 / 2) = none ∧
      ¬ check_volume_spike dfEmptyVol (3 / 2) = some false := by decide!

/-- Claim C10 (corrected).  For every frame whose volume column is present,
nonempty, and shorter than 20 rows, `check_volume_spike` returns `False`:
the 20-period rolling mean at the last row is undefined (NaN) and the
`avg_volume > 0` guard then fails. -/
theorem volume_spike_short_false (df : DataFrame) (vs : List ℚ) (multiplier : ℚ)
    (hv : df.volume = some vs) (h0 : vs ≠ []) (h20 : vs.length < 20) :
    check_volume_spike df multiplier = some false := by
  have hn : 0 < vs.length := List.length_pos.mpr h0
  have hlen : (rollingMeanF 20 (vs.map some)).length = vs.length := by
    rw [rollingMeanF_length]; simp
  have hlast : (rollingMeanF 20 (vs.map some)).getLast? = some none := by
    rw [List.getLast?_eq_getElem?, hlen,
      rollingMeanF_getElem 20 _ (vs.length - 1) (by simp; omega)]
    rw [if_neg (by omega)]
  have hvs : vs.getLast? = some (vs.getLast h0) := List.getLast?_eq_getLast_of_ne_nil h0
  simp only [check_volume_spike, hv, hlast, hvs]
  simp [fgt, flt]

/-- Witness for C10 as corrected: a three-row volume column yields `False`. -/
theorem volume_spike_short_false_witness :
    dfSmallVol.volume = some [10, 10, 100] ∧
      check_volume_spike dfSmallVol (3 / 2) = some false :=
  ⟨rfl, volume_spike_short_false dfSmallVol [10, 10, 100] (3 / 2) rfl
    (by decide) (by decide)⟩

/-- Claim C1, evaluation at the failing input.  On insufficient data the
guarded detectors do return `False` — but `check_bollinger_bounce` has no
guard at all: on a frame whose close column exists and is empty it raises
IndexError at `df['close_price'].iloc[-1]` (modelled as `none`), for any
square-root map.  This contradicts the never-raise policy the claim states,
and the spec's policy is clearly the intent (every other detector implements
the guard), so the missing guard is a slip in the code. -/
theorem detectors_empty_input_eval :
    check_bullish_macd [] = false ∧
    detect_bullish_engulfing dfEmptyClose = false ∧
    detect_bullish_hammer dfEmptyClose = false ∧
    check_volume_spike dfNoCols (3 / 2) = some false ∧
    check_bollinger_bounce (fun q => q) dfEmptyClose 20 2 = none ∧
    check_bollinger_bounce (fun _ => 0) dfEmptyClose 20 2 = none ∧
    ¬ check_bollinger_bounce (fun q => q) dfEmptyClose 20 2 = some false := by decide!

theorem all_isSome_of_map_some (l : List ℚ) (a b : ℕ) :
    (((l.map some).take a).drop b).all Option.isSome = true := by
  rw [List.all_eq_true]
  intro o ho
  have h2 : o ∈ l.map some := List.mem_of_mem_take (List.mem_of_mem_drop ho)
  obtain ⟨y, _, rfl⟩ := List.mem_map.mp h2
  rfl

/-- Claim C3, counterexample.  With `numStd = 0` the bands collapse onto the
SMA, but the combined condition is NOT contradictory: 19 closes at 100
followed by a close of 100.5 put the last close strictly above the 20-period
SMA (100.025) and within 1% of it, so the detector returns `True`.  The
square-root map is multiplied by `numStd = 0`, so the result is the same for
every such map (shown here for two different maps). -/
theorem bollinger_zero_std_counterexample :
    20 ≤ csBounce.length ∧
      check_bollinger_bounce (fun q => q) dfBounce 20 0 = some true ∧
      check_bollinger_bounce (fun _ => 0) dfBounce 20 0 = some true := by decide!

/-- Claim C3 (corrected).  For every series of at least 20 candles and every
square-root map, `check_bollinger_bounce` with `numStd = 0` returns `True`
exactly when the latest close is at most `1.01 ×` the 20-period SMA AND
strictly above that SMA — a satisfiable condition whenever the SMA is
positive, so the detector is not identically `False`; the claimed
contradiction would hold only for a nonpositive SMA. -/
theorem bollinger_zero_std_characterization (sqrtFn : ℚ → ℚ) (df : DataFrame)
    (cs : List ℚ) (hc : df.close_price = some cs) (h20 : 20 ≤ cs.length) :
    ∃ m latest, lastF (rollingMeanF 20 (cs.map some)) = some m ∧
      cs.getLast? = some latest ∧
      check_bollinger_bounce sqrtFn df 20 0 =
        some (decide (latest ≤ m * (101 / 100)) && decide (m < latest)) := by
  have hne : cs ≠ [] := by
    intro h
    rw [h] at h20
    simp at h20
  have hlatest : cs.getLast? = some (cs.getLast hne) :=
    List.getLast?_eq_getLast_of_ne_nil hne
  have hmaplen : (cs.map some).length = cs.length := by simp
  have he1 : cs.length - 1 + 1 = cs.length := by omega
  have hwin_all := all_isSome_of_map_some cs cs.length (cs.length - 20)
  have hwl : (((cs.map some).take cs.length).drop (cs.length - 20)).length = 20 := by
    rw [List.length_drop, List.length_take, hmaplen]
    omega
  have hwm : windowMean (((cs.map some).take cs.length).drop (cs.length - 20)) =
      some (((((cs.map some).take cs.length).drop (cs.length - 20)).map
        (fun o => o.getD 0)).sum /
        (((((cs.map some).take cs.length).drop (cs.length - 20))).length : ℚ)) := by
    rw [windowMean, if_pos hwin_all]
  obtain ⟨V, hV⟩ : ∃ v, windowVar (((cs.map some).take cs.length).drop
      (cs.length - 20)) = some v :=
    ⟨_, by rw [windowVar, if_pos ⟨hwin_all, by omega⟩]⟩
  have hsma_last : (rollingMeanF 20 (cs.map some)).getLast? =
      some (windowMean (((cs.map some).take cs.length).drop (cs.length - 20))) := by
    rw [List.getLast?_eq_getElem?, rollingMeanF_length, hmaplen,
      rollingMeanF_getElem 20 _ (cs.length - 1) (by rw [hmaplen]; omega),
      if_pos ⟨by norm_num, by omega⟩, he1]
  have hvar_last : (rollingVarF 20 (cs.map some))[cs.length - 1]? = some (some V) := by
    rw [rollingVarF_getElem 20 _ (cs.length - 1) (by rw [hmaplen]; omega),
      if_pos ⟨by norm_num, by omega⟩, he1, hV]
  refine ⟨_, cs.getLast hne,
    by simp only [lastF, hsma_last, hwm, Option.getD_some]; rfl, hlatest, ?_⟩
  simp only [check_bollinger_bounce, hc, compute_bollinger_bands, hlatest]
  have hlower : (List.zipWith (fun a b => fsub a (fmul (some (0 : ℚ)) b))
      (rollingMeanF 20 (cs.map some))
      ((rollingVarF 20 (cs.map some)).map (Option.map sqrtFn))).getLast? =
      some (windowMean (((cs.map some).take cs.length).drop (cs.length - 20))) := by
    rw [List.getLast?_eq_getElem?]
    have hzl : (List.zipWith (fun a b => fsub a (fmul (some (0 : ℚ)) b))
        (rollingMeanF 20 (cs.map some))
        ((rollingVarF 20 (cs.map some)).map (Option.map sqrtFn))).length =
        cs.length := by
      simp [List.length_zipWith, rollingMeanF_length, rollingVarF_length]
    rw [hzl, List.getElem?_zipWith]
    have hsma_elem : (rollingMeanF 20 (cs.map some))[cs.length - 1]? =
        some (windowMean (((cs.map some).take cs.length).drop (cs.length - 20))) := by
      rw [rollingMeanF_getElem 20 _ (cs.length - 1) (by rw [hmaplen]; omega),
        if_pos ⟨by norm_num, by omega⟩, he1]
    have hsd_elem : ((rollingVarF 20 (cs.map some)).map
        (Option.map sqrtFn))[cs.length - 1]? = some (some (sqrtFn V)) := by
      rw [List.getElem?_map, hvar_last]
      rfl
    rw [hsma_elem, hsd_elem, hwm]
    simp [fsub, fmul]
  simp only [lastF, hlower, hsma_last, hwm, Option.getD_some]
  simp [fle, fgt, flt, fmul]

/-- Witness for C3 as corrected: 20 closes at 100 with any square-root map;
the SMA is 100, the latest close is 100, and the detector returns
`decide (100 ≤ 101) && decide (100 < 100) = false`. -/
theorem bollinger_zero_std_characterization_witness :
    ((⟨20, none, none, none, some (List.replicate 20 (100 : ℚ)), none⟩ :
        DataFrame).close_price = some (List.replicate 20 (100 : ℚ)) ∧
      20 ≤ (List.replicate 20 (100 : ℚ)).length) ∧
    (∃ m latest,
      lastF (rollingMeanF 20 ((List.replicate 20 (100 : ℚ)).map some)) = some m ∧
      (List.replicate 20 (100 : ℚ)).getLast? = some latest ∧
      check_bollinger_bounce (fun _ => 0)
        ⟨20, none, none, none, some (List.replicate 20 (100 : ℚ)), none⟩ 20 0 =
        some (decide (latest ≤ m * (101 / 100)) && decide (m < latest))) :=
  ⟨⟨rfl, by decide⟩,
    bollinger_zero_std_characterization (fun _ => 0) _ _ rfl (by decide)⟩

/-- Claim C7 (confirmed).  Whenever `analyze_stock_full` produces a record,
its `basic_ma_rsi_criteria` flag is true iff `last_trade_price > ma_short`,
`ma_short > ma_long`, and `rsi < 70`, where `ma_short` is the 10-period SMA,
`ma_long` the 50-period SMA and `rsi` the 14-period RSI, all taken at the
last row of the close series (NaN comparisons are false, as in the source's
float comparisons). -/
theorem basic_criteria_iff (sqrtFn : ℚ → ℚ) (q : Option ℚ) (df : DataFrame)
    (cs : List ℚ) (rec : SignalRecord) (hc : df.close_price = some cs)
    (h : analyze_stock_full sqrtFn (some q) (some df) = some rec) :
    rec.basic_ma_rsi_criteria =
      (fgt (some rec.last_trade_price) (lastF (compute_moving_average cs 10)) &&
        fgt (lastF (compute_moving_average cs 10))
          (lastF (compute_moving_average cs 50)) &&
        flt (lastF (compute_rsi cs 14)) (some 70)) := by
  simp only [analyze_stock_full, hc] at h
  by_cases hn : df.nrows = 0
  · rw [if_pos hn] at h
    exact absurd h (by simp)
  · rw [if_neg hn] at h
    have hrec := (Option.some.injEq _ _).mp h
    rw [← hrec]

/-- Witness for C7: a one-row frame with close `[1]` and a quote of 5. -/
theorem basic_criteria_iff_witness :
    (dfOneRow.close_price = some [1] ∧
      analyze_stock_full (fun _ => 0) (some (some 5)) (some dfOneRow) =
        some recOneRow) ∧
    recOneRow.basic_ma_rsi_criteria =
      (fgt (some recOneRow.last_trade_price) (lastF (compute_moving_average [1] 10)) &&
        fgt (lastF (compute_moving_average [1] 10))
          (lastF (compute_moving_average [1] 50)) &&
        flt (lastF (compute_rsi [1] 14)) (some 70)) :=
  ⟨⟨rfl, by decide!⟩,
    basic_criteria_iff (fun _ => 0) (some 5) dfOneRow [1] recOneRow rfl (by decide!)⟩

/-- Claim C9 (confirmed).  When the quote object exists but lacks the
`last_trade_price` key (modelled as `some none`), `analyze_stock_full` does
not skip the symbol: `float(quote.get('last_trade_price', 0))` yields 0.0,
and with historical data present a full record is produced whose
`last_trade_price` is 0, so the basic criteria flag is evaluated against a
price of 0. -/
theorem missing_quote_key_uses_zero (sqrtFn : ℚ → ℚ) (df : DataFrame)
    (cs : List ℚ) (hc : df.close_price = some cs) (hn : df.nrows ≠ 0) :
    ∃ rec, analyze_stock_full sqrtFn (some none) (some df) = some rec ∧
      rec.last_trade_price = 0 ∧
      rec.basic_ma_rsi_criteria =
        (fgt (some 0) (lastF (compute_moving_average cs 10)) &&
          fgt (lastF (compute_moving_average cs 10))
            (lastF (compute_moving_average cs 50)) &&
          flt (lastF (compute_rsi cs 14)) (some 70)) := by
  refine ⟨⟨0, lastF (compute_moving_average cs 10), lastF (compute_moving_average cs 50),
    lastF (compute_rsi cs 14),
    fgt (some 0) (lastF (compute_moving_average cs 10)) &&
      fgt (lastF (compute_moving_average cs 10)) (lastF (compute_moving_average cs 50)) &&
      flt (lastF (compute_rsi cs 14)) (some 70),
    check_bullish_macd cs,
    (check_bollinger_bounce sqrtFn df 20 2).getD false,
    (check_volume_spike df (3 / 2)).getD false,
    detect_bullish_engulfing df,
    detect_bullish_hammer df⟩, ?_, rfl, rfl⟩
  simp only [analyze_stock_full, hc, if_neg hn, Option.getD_none]

/-- Witness for C9: a two-row frame with close `[2, 3]`. -/
theorem missing_quote_key_uses_zero_witness :
    (dfTwoRow.close_price = some [2, 3] ∧ dfTwoRow.nrows ≠ 0) ∧
    (∃ rec, analyze_stock_full (fun _ => 0) (some none) (some dfTwoRow) = some rec ∧
      rec.last_trade_price = 0 ∧
      rec.basic_ma_rsi_criteria =
        (fgt (some 0) (lastF (compute_moving_average [2, 3] 10)) &&
          fgt (lastF (compute_moving_average [2, 3] 10))
            (lastF (compute_moving_average [2, 3] 50)) &&
          flt (lastF (compute_rsi [2, 3] 14)) (some 70))) :=
  ⟨⟨rfl, by decide⟩,
    missing_quote_key_uses_zero (fun _ => 0) dfTwoRow [2, 3] rfl (by decide)⟩

/-- Claim C2, counterexample.  At the source's default parameters
(`short_period = 50`, `long_period = 200`, `lookback = 5`), on 205 closes
that are zero except for a spike at index 150, the code's `slope_short` is
`(maShort[last] - maShort[last - (lookback - 1)]) / lookback = 0`, while the
claim's formula `(maShort[last] - maShort[last - lookback]) / lookback`
equals `(0 - 1/10) / 5 = -1/50 /= 0`: `tail(lookback).iloc[0]` sits
`lookback - 1`, not `lookback`, positions before the last point.  (The clean
rows are the trailing contiguous block, so the df-index reading
`maShort[204] - maShort[199]` and the clean-index reading
`clean[m-1] - clean[m-1-lookback]` coincide; both are evaluated below.) -/
theorem gc_slope_off_by_one_counterexample :
    gc_slope_short pricesC2 50 200 5 = some 0 ∧
    (compute_moving_average pricesC2 50)[pricesC2.length - 1]? = some (some 0) ∧
    (compute_moving_average pricesC2 50)[pricesC2.length - 1 - 5]? =
      some (some (1 / 10)) ∧
    (gc_clean pricesC2 50 200).length = 6 ∧
    (gc_clean pricesC2 50 200)[6 - 1]? = some (0, 1 / 40) ∧
    (gc_clean pricesC2 50 200)[6 - 1 - 5]? = some (1 / 10, 1 / 40) ∧
    ¬ ((0 : ℚ) - 1 / 10) / 5 = 0 := by decide!

/-- Claim C2 (corrected).  Over the trailing `lookback` clean points,
`slope_short` is the difference between the last clean point and the FIRST of
those trailing points — the point `lookback - 1` (not `lookback`) positions
before the last — divided by `lookback`, and likewise `gap_slope` for
`gap = maLong - maShort`. -/
theorem gc_slopes_characterization (prices : List ℚ) (sp lp lb : ℕ)
    (h1 : 1 ≤ lb) (h2 : lb ≤ (gc_clean prices sp lp).length) :
    ∃ a b,
      (gc_clean prices sp lp)[(gc_clean prices sp lp).length - 1]? = some a ∧
      (gc_clean prices sp lp)[(gc_clean prices sp lp).length - lb]? = some b ∧
      gc_slope_short prices sp lp lb = some ((a.1 - b.1) / (lb : ℚ)) ∧
      gc_gap_slope prices sp lp lb =
        some (((a.2 - a.1) - (b.2 - b.1)) / (lb : ℚ)) := by
  set cl := gc_clean prices sp lp with hcl
  have hlast_lt : cl.length - 1 < cl.length := by omega
  have hfirst_lt : cl.length - lb < cl.length := by omega
  have hhead : (gc_recent prices sp lp lb).head? = cl[cl.length - lb]? := by
    rw [gc_recent, List.head?_eq_getElem?, List.getElem?_drop, ← hcl]
    congr 1
  have hlastr : (gc_recent prices sp lp lb).getLast? = cl[cl.length - 1]? := by
    rw [gc_recent, List.getLast?_eq_getElem?, List.getElem?_drop, ← hcl,
      List.length_drop]
    congr 1
    omega
  obtain ⟨a, ha⟩ : ∃ a, cl[cl.length - 1]? = some a :=
    ⟨_, List.getElem?_eq_getElem hlast_lt⟩
  obtain ⟨b, hb⟩ : ∃ b, cl[cl.length - lb]? = some b :=
    ⟨_, List.getElem?_eq_getElem hfirst_lt⟩
  refine ⟨a, b, ha, hb, ?_, ?_⟩
  · rw [gc_slope_short, hlastr, hhead, ha, hb]
  · rw [gc_gap_slope, hlastr, hhead, ha, hb]

/-- Witness for C2 as corrected: `prices = [1, 2]` with both windows 1 and
`lookback = 1`; both clean points are defined and the slope formulas hold. -/
theorem gc_slopes_characterization_witness :
    (1 ≤ 1 ∧ 1 ≤ (gc_clean [1, 2] 1 1).length) ∧
    (∃ a b,
      (gc_clean [1, 2] 1 1)[(gc_clean [1, 2] 1 1).length - 1]? = some a ∧
      (gc_clean [1, 2] 1 1)[(gc_clean [1, 2] 1 1).length - 1]? = some b ∧
      gc_slope_short [1, 2] 1 1 1 = some ((a.1 - b.1) / ((1 : ℕ) : ℚ)) ∧
      gc_gap_slope [1, 2] 1 1 1 =
        some (((a.2 - a.1) - (b.2 - b.1)) / ((1 : ℕ) : ℚ))) :=
  ⟨⟨le_refl 1, by decide!⟩, gc_slopes_characterization [1, 2] 1 1 1
    (le_refl 1) (by decide!)⟩

theorem diffF_length (xs : List ℚ) : (diffF xs).length = xs.length := by
  cases xs with
  | nil => rfl
  | cons x t =>
    simp only [diffF, List.length_cons, List.length_zipWith]
    omega

theorem diffF_drop_append (pre t : List ℚ) (ht : t ≠ []) :
    (diffF (pre ++ t)).drop (pre.length + 1) = (pairDiffs t).map some := by
  have hne : pre ++ t ≠ [] := by simp [ht]
  have hdef : diffF (pre ++ t) = none :: List.zipWith (fun a b => some (b - a))
      (pre ++ t) (pre ++ t).tail := by
    cases hP : pre ++ t with
    | nil => exact absurd hP hne
    | cons x xs => rfl
  have htail : (pre ++ t).tail.drop pre.length = t.tail := by
    rw [← List.drop_one, List.drop_drop, Nat.add_comm 1 pre.length,
      ← List.drop_drop, List.drop_left, List.drop_one]
  rw [hdef, List.drop_succ_cons, List.drop_zipWith, List.drop_left, htail,
    pairDiffs, List.map_zipWith]

theorem sum_map_zero (l : List ℚ) : (l.map (fun _ => (0 : ℚ))).sum = 0 := by
  induction l with
  | nil => rfl
  | cons x t ih => simp [ih]

theorem pairDiffs_length (t : List ℚ) : (pairDiffs t).length = t.length - 1 := by
  rw [pairDiffs, List.length_zipWith, List.length_tail]
  omega

/-- Claim C4 (confirmed).  For every price series of at least 15 values whose
trailing 14 one-step differences are all nonnegative with at least one
strictly positive (so `avg_loss = 0` and `avg_gain > 0`), `compute_rsi` at
the last index is exactly 100: the infinite ratio of the source's float
division saturates the RSI at its defined limiting value rather than
faulting.  (A series of at least 15 values is decomposed as an arbitrary
prefix `pre` followed by its trailing 15 values `t`; the trailing 14
differences of the series are exactly the internal differences of `t`.) -/
theorem rsi_saturates_at_100 (pre t : List ℚ) (hlen : t.length = 15)
    (hpos : ∀ d ∈ pairDiffs t, 0 ≤ d) (hex : ∃ d ∈ pairDiffs t, 0 < d) :
    (compute_rsi (pre ++ t) 14).getLast? = some (some 100) := by
  have htne : t ≠ [] := by
    intro h
    rw [h] at hlen
    simp at hlen
  have hPlen : (pre ++ t).length = pre.length + 15 := by simp [hlen]
  have hdlen : (diffF (pre ++ t)).length = pre.length + 15 := by
    rw [diffF_length, hPlen]
  have hglen : ((diffF (pre ++ t)).map gainF).length = pre.length + 15 := by
    rw [List.length_map, hdlen]
  have hllen : ((diffF (pre ++ t)).map lossF).length = pre.length + 15 := by
    rw [List.length_map, hdlen]
  have hpd : (pairDiffs t).length = 14 := by rw [pairDiffs_length, hlen]
  have hrlen : (compute_rsi (pre ++ t) 14).length = pre.length + 15 := by
    rw [compute_rsi, List.length_zipWith, rollingMeanF_length,
      rollingMeanF_length, hglen, hllen, Nat.min_self]
  have he1 : pre.length + 15 - 1 + 1 = pre.length + 15 := by omega
  have he2 : pre.length + 15 - 14 = pre.length + 1 := by omega
  have htakeG : ((diffF (pre ++ t)).map gainF).take (pre.length + 15) =
      (diffF (pre ++ t)).map gainF := by
    rw [← hglen]
    exact List.take_length _
  have htakeL : ((diffF (pre ++ t)).map lossF).take (pre.length + 15) =
      (diffF (pre ++ t)).map lossF := by
    rw [← hllen]
    exact List.take_length _
  have hwinG : ((diffF (pre ++ t)).map gainF).drop (pre.length + 1) =
      (pairDiffs t).map (fun d => some (max d 0)) := by
    rw [← List.map_drop, diffF_drop_append pre t htne, List.map_map]
    rfl
  have hwinL : ((diffF (pre ++ t)).map lossF).drop (pre.length + 1) =
      (pairDiffs t).map (fun d => some (-(min d 0))) := by
    rw [← List.map_drop, diffF_drop_append pre t htne, List.map_map]
    rfl
  have hvalsG : ((pairDiffs t).map (fun d => some (max d 0))).map
      (fun o => o.getD 0) = pairDiffs t := by
    rw [List.map_map]
    have : ∀ d ∈ pairDiffs t, ((fun o => Option.getD o 0) ∘
        (fun d => some (max d 0))) d = (fun d => d) d := by
      intro d hd
      simp [max_eq_left (hpos d hd)]
    rw [List.map_congr_left this, List.map_id']
  have hvalsL : ((pairDiffs t).map (fun d => some (-(min d 0)))).map
      (fun o => o.getD 0) = (pairDiffs t).map (fun _ => (0 : ℚ)) := by
    rw [List.map_map]
    refine List.map_congr_left ?_
    intro d hd
    simp [min_eq_right (hpos d hd)]
  have hallG : ((pairDiffs t).map (fun d => some (max d 0))).all
      Option.isSome = true := by
    simp [List.all_eq_true]
  have hallL : ((pairDiffs t).map (fun d => some (-(min d 0)))).all
      Option.isSome = true := by
    simp [List.all_eq_true]
  have hS : 0 < (pairDiffs t).sum := by
    obtain ⟨d, hd, hd0⟩ := hex
    exact lt_of_lt_of_le hd0 (List.single_le_sum hpos d hd)
  have hmeanG : windowMean ((pairDiffs t).map (fun d => some (max d 0))) =
      some ((pairDiffs t).sum / ((14 : ℕ) : ℚ)) := by
    rw [windowMean, if_pos hallG, hvalsG, List.length_map, hpd]
  have hmeanL : windowMean ((pairDiffs t).map (fun d => some (-(min d 0)))) =
      some 0 := by
    rw [windowMean, if_pos hallL, hvalsL, sum_map_zero, zero_div]
  rw [List.getLast?_eq_getElem?, hrlen, compute_rsi, List.getElem?_zipWith,
    rollingMeanF_getElem 14 _ (pre.length + 15 - 1) (by rw [hglen]; omega),
    rollingMeanF_getElem 14 _ (pre.length + 15 - 1) (by rw [hllen]; omega),
    he1, if_pos (by constructor <;> omega), htakeG, htakeL, he2, hwinG, hwinL,
    hmeanG, hmeanL]
  have h14 : ((14 : ℕ) : ℚ) ≠ 0 := by norm_num
  have hg0 : (pairDiffs t).sum / ((14 : ℕ) : ℚ) ≠ 0 :=
    ne_of_gt (div_pos hS (by norm_num))
  simp [rsiPoint, hg0, ne_of_gt hS]

/-- Witness for C4: the 15-value series `0, ..., 0, 1`, whose trailing
differences are thirteen zeros and one 1. -/
theorem rsi_saturates_at_100_witness :
    (csRsi.length = 15 ∧ (∀ d ∈ pairDiffs csRsi, 0 ≤ d) ∧
      (∃ d ∈ pairDiffs csRsi, 0 < d)) ∧
    (compute_rsi ([] ++ csRsi) 14).getLast? = some (some 100) :=
  ⟨by refine ⟨by decide, by decide!, by decide!⟩,
    rsi_saturates_at_100 [] csRsi (by decide) (by decide!) (by decide!)⟩

end XStonks
